import Mathlib

/-!
Verification of the Payment & Subscription Lifecycle Engine of the
TgBot_vpn repository, as a shallow embedding in Lean 4.

Conventions used throughout the embedding:
* monetary amounts stored on a payment intent are natural numbers in
  kopecks (minor units), exactly as `Payment.amount` in
  `bot/models/database.py`;
* the float-valued fields `User.referral_balance` and `User.total_spent`
  (rubles) are modelled as rationals, so that the ruble/kopeck factor of
  100 is represented exactly;
* timestamps are integers (seconds); `timedelta(minutes=15)` is 900
  seconds and `timedelta(days=d)` is `d * 86400` seconds;
* a Python HTTP interaction that can raise (network error,
  `raise_for_status`, JSON decoding) is modelled by the sum type `Http`
  whose `exn` constructor stands for any raised exception, and a JSON
  field lookup `d.get(k)` is modelled by an `Option` value.
-/

/-- Result of an HTTP interaction with a payment provider: either the
decoded payload of interest, or any raised exception (`exn`). -/
inductive Http (α : Type) : Type where
  | ok (a : α)
  | exn
deriving DecidableEq

/-- The four canonical payment statuses of the system
(`completed`, `failed`, `pending`, `unknown`). -/
def canonicalStatuses : List String :=
  ["completed", "failed", "pending", "unknown"]

/-- Embedding of `YooMoneyPayment.check_payment`
(`bot/utils/payments.py`, lines 68-93).  The payload is the `status`
field of the response JSON (`result.get('status', 'unknown')` supplies
the string `unknown` when the field is absent).  Any exception yields
`unknown`. -/
def yoomoney_check (r : Http (Option String)) : String :=
  match r with
  | .exn => "unknown"
  | .ok st =>
    let status := match st with | none => "unknown" | some s => s
    if status = "success" then "completed"
    else if status = "refused" ∨ status = "failed" then "failed"
    else "pending"

/-- Embedding of `QiwiPayment.check_payment`
(`bot/utils/payments.py`, lines 143-167).  The payload is
`result.get('status', d).get('value', 'unknown')`. -/
def qiwi_check (r : Http (Option String)) : String :=
  match r with
  | .exn => "unknown"
  | .ok st =>
    let status := match st with | none => "unknown" | some s => s
    if status = "PAID" then "completed"
    else if status = "REJECTED" ∨ status = "EXPIRED" then "failed"
    else "pending"

/-- Embedding of `CryptomusPayment.check_payment`
(`bot/utils/payments.py`, lines 235-269).  The payload is the pair of
the `state` field and `result.get('result', d).get('payment_status')`.
A `state` different from `0` (or absent) yields `unknown`; any
exception yields `unknown`. -/
def cryptomus_check (r : Http (Option Int × Option String)) : String :=
  match r with
  | .exn => "unknown"
  | .ok (state, ps) =>
    if state = some 0 then
      if ps = some "paid" then "completed"
      else if ps = some "fail" ∨ ps = some "cancel" ∨ ps = some "system_fail" then "failed"
      else "pending"
    else "unknown"

/-- Which provider clients the `PaymentManager` constructor built
(a client exists exactly when its token/key is configured,
`bot/utils/payments.py`, lines 275-278). -/
structure PaymentManagerCfg : Type where
  yoomoney : Bool
  qiwi : Bool
  cryptomus : Bool
deriving DecidableEq

/-- The provider responses a given `check_payment` call would observe,
one per provider family. -/
structure ProviderResponses : Type where
  yoo : Http (Option String)
  qi : Http (Option String)
  crypto : Http (Option Int × Option String)
deriving DecidableEq

/-- Embedding of `PaymentManager.check_payment`
(`bot/utils/payments.py`, lines 298-312): route on the method string and
the configured clients; any non-matching or unconfigured method falls to
the final `else` returning `unknown`.  The surrounding
`try/except` returning `unknown` is subsumed by the `Http.exn` cases of
the per-provider functions, which already catch every exception. -/
def manager_check_payment (cfg : PaymentManagerCfg) (rs : ProviderResponses)
    (method : String) : String :=
  if method = "yoomoney" ∧ cfg.yoomoney then yoomoney_check rs.yoo
  else if method = "qiwi" ∧ cfg.qiwi then qiwi_check rs.qi
  else if method = "crypto" ∧ cfg.cryptomus then cryptomus_check rs.crypto
  else "unknown"

/-- A provider-status probe string that appears in no provider's mapping
table. -/
def unmappedProbe : String := "zzz"

/-- The YooMoney statuses that the code's mapping table mentions
explicitly (lines 84-87 of `bot/utils/payments.py`). -/
def yoomoneyMapped : List String := ["success", "refused", "failed"]

/-- The QIWI statuses that the code's mapping table mentions explicitly
(lines 158-161). -/
def qiwiMapped : List String := ["PAID", "REJECTED", "EXPIRED"]

/-- The Cryptomus statuses that the code's mapping table mentions
explicitly (lines 258-261). -/
def cryptomusMapped : List String := ["paid", "fail", "cancel", "system_fail"]

/-- Subscription plan record: `price` (rubles, integer) and
`duration_days`, from `SUBSCRIPTION_PLANS` in `bot/config/settings.py`. -/
structure Plan : Type where
  price : Nat
  duration_days : Nat
deriving DecidableEq

/-- Embedding of the `SUBSCRIPTION_PLANS` dictionary
(`bot/config/settings.py`, lines 61-94), at the default prices
`PLAN_*_PRICE` of lines 37-40. -/
def SUBSCRIPTION_PLANS : String → Option Plan
  | "1_month" => some ⟨299, 30⟩
  | "3_months" => some ⟨799, 90⟩
  | "6_months" => some ⟨1499, 180⟩
  | "12_months" => some ⟨2699, 365⟩
  | _ => none

/-- Embedding of `Config.REFERRAL_BONUS_PERCENT`
(`bot/config/settings.py`, line 43, default 10). -/
def REFERRAL_BONUS_PERCENT : Nat := 10

/-- Embedding of `calculate_referral_bonus` (`bot/utils/helpers.py`,
lines 219-222): `int(amount * Config.REFERRAL_BONUS_PERCENT / 100)`.
For non-negative integer inputs in the exactly-representable float
range, the Python truncation coincides with natural floor division. -/
def calculate_referral_bonus (amount : Nat) : Nat :=
  amount * REFERRAL_BONUS_PERCENT / 100

/-- Row of the `users` table (`bot/models/database.py`, class `User`),
restricted to the fields the payment lifecycle reads or writes. -/
structure UserR : Type where
  id : Nat
  telegram_id : Nat
  referrer_id : Option Nat
  referral_balance : ℚ
  total_referrals : Nat
  total_spent : ℚ
deriving DecidableEq

/-- Row of the `subscriptions` table (`bot/models/database.py`, class
`Subscription`), restricted to the fields the lifecycle uses. -/
structure SubR : Type where
  user_id : Nat
  plan_type : String
  start_date : Int
  end_date : Int
  is_active : Bool
deriving DecidableEq

/-- Row of the `payments` table (`bot/models/database.py`, class
`Payment`).  `amount` is an integer in kopecks (line 120); `status`
defaults to `pending` (line 126). -/
structure PaymentR : Type where
  id : Nat
  user_id : Nat
  amount : Nat
  plan_type : String
  payment_method : String
  payment_ext_id : Option String
  payment_url : Option String
  status : String
  created_at : Int
  completed_at : Option Int
  expires_at : Option Int
deriving DecidableEq

/-- Embedding of `Payment.amount_rubles` (`bot/models/database.py`,
lines 137-140): `self.amount / 100` as a true (non-truncating)
division, modelled over the rationals. -/
def PaymentR.amount_rubles (p : PaymentR) : ℚ :=
  (p.amount : ℚ) / 100

/-- Embedding of the property `Payment.is_expired`
(`bot/models/database.py`, lines 142-145):
`self.expires_at and datetime.utcnow() > self.expires_at` — a missing
`expires_at` is falsy, otherwise a strict comparison with the clock. -/
def PaymentR.is_expired (p : PaymentR) (now : Int) : Bool :=
  match p.expires_at with
  | none => false
  | some e => now > e

/-- The persistent store visible to the payment lifecycle: the three
tables the handlers in `bot/handlers/main.py` touch. -/
structure DB : Type where
  users : List UserR
  subs : List SubR
  payments : List PaymentR
deriving DecidableEq

/-- Model of `session.query(Payment).filter_by(id=pid).first()`. -/
def lookupPayment (db : DB) (pid : Nat) : Option PaymentR :=
  db.payments.find? (fun p => p.id = pid)

/-- Model of `session.query(User).filter_by(id=uid).first()`. -/
def lookupUser (db : DB) (uid : Nat) : Option UserR :=
  db.users.find? (fun u => u.id = uid)

/-- The subscriptions of user `uid` that hold `is_active = true` and an
`end_date` still in the future at time `now` (the §3 uniqueness
invariant is stated over this list). -/
def activeFreshSubs (db : DB) (uid : Nat) (now : Int) : List SubR :=
  db.subs.filter (fun s => s.user_id = uid ∧ s.is_active = true ∧ now < s.end_date)

/-- Outcome of one `verify_payment` call, together with the store state
it left behind and whether the provider's `check` was invoked. -/
structure VerifyRes : Type where
  db : DB
  outcome : String
  providerChecked : Bool
deriving DecidableEq

/-- Row update of `payment.status = 'completed'` /
`payment.completed_at = datetime.utcnow()` (`bot/handlers/main.py`,
lines 335-336), applied to the row with the given id. -/
def completeUpd (now : Int) (pid : Nat) (q : PaymentR) : PaymentR :=
  if q.id = pid then { q with status := "completed", completed_at := some now }
  else q

/-- Row update of `user.total_spent += payment.amount_rubles`
(`bot/handlers/main.py`, line 340), applied to the row with the given
id. -/
def spendUpd (uid : Nat) (amt : ℚ) (u : UserR) : UserR :=
  if u.id = uid then { u with total_spent := u.total_spent + amt }
  else u

/-- Row update of `sub.is_active = False` for the query
`filter_by(user_id=..., is_active=True)` (`bot/handlers/main.py`,
lines 343-348). -/
def deactUpd (uid : Nat) (s : SubR) : SubR :=
  if s.user_id = uid ∧ s.is_active = true then { s with is_active := false }
  else s

/-- Row update of `referrer.referral_balance += bonus / 100`
(`bot/handlers/main.py`, line 367), applied to the row with the given
id; `bonus100` is the already-divided rational `bonus / 100`. -/
def creditUpd (rid : Nat) (bonus100 : ℚ) (u : UserR) : UserR :=
  if u.id = rid then { u with referral_balance := u.referral_balance + bonus100 }
  else u

/-- The fresh `Subscription` row built at `bot/handlers/main.py`,
lines 352-359: `end_date = calculate_end_date(plan_type)`
(= now + duration_days, `bot/utils/helpers.py` lines 156-164), with the
column defaults `start_date = now` and `is_active = True`. -/
def newSubOf (now : Int) (payment : PaymentR) (plan : Plan) : SubR :=
  { user_id := payment.user_id
    plan_type := payment.plan_type
    start_date := now
    end_date := now + (plan.duration_days : Int) * 86400
    is_active := true }

/-- The activation block of `verify_payment` (`bot/handlers/main.py`,
lines 333-382), entered when the provider reports `completed`.  In
source order: set the intent's status to `completed` with
`completed_at = now`; add `amount_rubles` to the user's `total_spent`;
set `is_active = False` on every active subscription of the user;
`session.add` the new subscription; if the user's `referrer_id` is set,
add `calculate_referral_bonus(amount) / 100` to the referrer's
`referral_balance` (a missing referrer row makes the update a no-op,
matching the `if referrer:` guard).  A missing user row or an unknown
plan type raises inside the handler before any commit, leaving the
store unchanged (`none`). -/
def activate (now : Int) (db : DB) (payment : PaymentR) : Option DB :=
  match lookupUser db payment.user_id with
  | none => none
  | some user =>
    match SUBSCRIPTION_PLANS payment.plan_type with
    | none => none
    | some plan =>
      let users1 := db.users.map (spendUpd payment.user_id payment.amount_rubles)
      let users2 :=
        match user.referrer_id with
        | none => users1
        | some rid =>
          users1.map (creditUpd rid ((calculate_referral_bonus payment.amount : ℚ) / 100))
      some { users := users2
             subs := db.subs.map (deactUpd payment.user_id) ++ [newSubOf now payment plan]
             payments := db.payments.map (completeUpd now payment.id) }

/-- Embedding of `verify_payment` (`bot/handlers/main.py`,
lines 311-451).  `provStatus` is the value
`payment_manager.check_payment(...)` would return for this intent; the
field `providerChecked` of the result records whether that call was
reached.  The branches follow the source: missing intent; `is_expired`
short-circuit (timeout message, no write, no provider call); provider
`completed` (activation, or the store left unchanged when the handler
raises before a commit); provider `failed` (status write); otherwise
pending/unknown (no write, time-left report, or a timeout message when
no time is left). -/
def verify_payment (now : Int) (provStatus : String) (db : DB) (pid : Nat) :
    VerifyRes :=
  match lookupPayment db pid with
  | none => ⟨db, "not_found", false⟩
  | some payment =>
    if payment.is_expired now then ⟨db, "timeout", false⟩
    else if provStatus = "completed" then
      match activate now db payment with
      | none => ⟨db, "error", true⟩
      | some db1 => ⟨db1, "success", true⟩
    else if provStatus = "failed" then
      ⟨{ db with payments := db.payments.map (fun q =>
          if q.id = pid then { q with status := "failed" } else q) },
        "failed", true⟩
    else
      match payment.expires_at with
      | none => ⟨db, "error", true⟩
      | some e =>
        if (e - now) / 60 > 0 then ⟨db, "pending_wait", true⟩
        else ⟨db, "timeout", true⟩

/-- Events of `process_payment`, in the order the handler performs its
store writes and its provider call. -/
inductive PEvent : Type where
  | persistIntent (pid : Nat)
  | providerCreate
  | updateIntentExternal (pid : Nat)
deriving DecidableEq

/-- Result of one `process_payment` call: the store it left behind,
whether the user got a payment URL, and the ordered event trace. -/
structure PayRes : Type where
  db : DB
  ok : Bool
  events : List PEvent
deriving DecidableEq

/-- Row update of `payment.payment_id = ...` /
`payment.payment_url = ...` after a successful provider create
(`bot/handlers/main.py`, lines 271-273), applied to the row with the
given id. -/
def extUpd (pid : Nat) (extId url : String) (q : PaymentR) : PaymentR :=
  if q.id = pid then { q with payment_ext_id := some extId, payment_url := some url }
  else q

/-- The `Payment` row built at `bot/handlers/main.py`, lines 250-256:
`amount = plan.price * 100` (kopecks), `expires_at = now + 15 minutes`,
and the column defaults `status = pending` and `created_at = now`. -/
def newIntent (now : Int) (pid uid : Nat) (planType method : String)
    (plan : Plan) : PaymentR :=
  { id := pid
    user_id := uid
    amount := plan.price * 100
    plan_type := planType
    payment_method := method
    payment_ext_id := none
    payment_url := none
    status := "pending"
    created_at := now
    completed_at := none
    expires_at := some (now + 900) }

/-- Embedding of `process_payment` (`bot/handlers/main.py`,
lines 232-308).  A new `Payment` row is built with
`amount = plan.price * 100` (kopecks, line 252),
`expires_at = now + 15 minutes` (line 255), the column defaults
`status = pending` and `created_at = now`, and is committed
(line 258) before `payment_manager.create_payment` is called
(line 263).  `provResult` is that provider call's outcome: external
id and pay URL, or a raised `PaymentError`; on the error the handler
shows a message and returns with no further write (lines 275-278), and
on success it stores the external id and URL (lines 271-273).  An
unknown plan raises before the session opens, leaving the store
unchanged. -/
def process_payment (now : Int) (db : DB) (newPid : Nat) (uid : Nat)
    (planType method : String) (provResult : Except Unit (String × String)) :
    PayRes :=
  match SUBSCRIPTION_PLANS planType with
  | none => ⟨db, false, []⟩
  | some plan =>
    let payment : PaymentR := newIntent now newPid uid planType method plan
    let db1 : DB := { db with payments := db.payments ++ [payment] }
    match provResult with
    | .error _ => ⟨db1, false, [.persistIntent newPid, .providerCreate]⟩
    | .ok (extId, url) =>
      let db2 : DB := { db1 with payments := db1.payments.map (extUpd newPid extId url) }
      ⟨db2, true, [.persistIntent newPid, .providerCreate, .updateIntentExternal newPid]⟩

/-- One pass of the send loop of `admin_broadcast_confirm`
(`bot/handlers/admin.py`, lines 582-606): starting at send index `i`,
run one per-recipient `try` body for every remaining recipient.  The
`try` covers, in order: the `send_message` call (`sendOk i` tells
whether it raises), then `sent_count += 1`, then — on every 50th
iteration — the progress `edit_message_text` (`progressOk i`), then the
pacing `asyncio.sleep` (`sleepOk i`).  Whichever of these raises first
jumps to the `except` branch, which increments `failed_count`; since
the progress edit and the sleep run AFTER the send was already counted,
one iteration can increment both counters.  The loop always continues
with the next recipient.  Returns (sent so far, failed so far,
recipients attempted in order). -/
def broadcastLoop (sendOk progressOk sleepOk : Nat → Bool) :
    Nat → List Nat → Nat × Nat × List Nat
  | _, [] => (0, 0, [])
  | i, u :: rest =>
    let r := broadcastLoop sendOk progressOk sleepOk (i + 1) rest
    if sendOk i then
      if (i + 1) % 50 = 0 ∧ progressOk i = false then (r.1 + 1, r.2.1 + 1, u :: r.2.2)
      else if sleepOk i = false then (r.1 + 1, r.2.1 + 1, u :: r.2.2)
      else (r.1 + 1, r.2.1, u :: r.2.2)
    else (r.1, r.2.1 + 1, u :: r.2.2)

/-- Final report of a broadcast: `sent_count`, `failed_count`, and
`total_users` as shown in the handler's closing message. -/
structure BroadcastReport : Type where
  sent : Nat
  failed : Nat
  total : Nat
deriving DecidableEq

/-- Embedding of `admin_broadcast_confirm` (`bot/handlers/admin.py`,
lines 555-628): enumerate all users and run the per-recipient
`try/except` body of `broadcastLoop` over their `telegram_id`s; report
`(sent, failed, total)` with `total = len(users)`.  Also returns the
list of telegram ids actually attempted, in order. -/
def admin_broadcast_confirm (sendOk progressOk sleepOk : Nat → Bool) (db : DB) :
    BroadcastReport × List Nat :=
  let recipients := db.users.map (fun u => u.telegram_id)
  let r := broadcastLoop sendOk progressOk sleepOk 0 recipients
  (⟨r.1, r.2.1, db.users.length⟩, r.2.2)

/-- Canonical status string `completed`. -/
def stCompleted : String := "completed"

/-- Canonical status string `failed`. -/
def stFailed : String := "failed"

/-- Canonical status string `pending`. -/
def stPending : String := "pending"

/-- Canonical status string `unknown`. -/
def stUnknown : String := "unknown"

/-- Status string `expired`, which the spec's state machine uses; the
code's `Payment.status` comment (`bot/models/database.py`, line 126)
lists `pending, completed, failed, cancelled` instead. -/
def stExpired : String := "expired"

/-- Plan key of the one-month plan. -/
def plan1m : String := "1_month"

/-- Method key of the YooMoney provider. -/
def methodYm : String := "yoomoney"

/-- A store with no rows, for closed instances. -/
def emptyDB : DB := ⟨[], [], []⟩

theorem find_map_comm {α : Type} (f : α → α) (p : α → Bool)
    (h : ∀ a, p (f a) = p a) (l : List α) :
    (l.map f).find? p = (l.find? p).map f := by
  induction l with
  | nil => rfl
  | cons a t ih =>
    cases hpa : p a with
    | true =>
      rw [List.map_cons, List.find?_cons_of_pos _ (by rw [h a, hpa]),
        List.find?_cons_of_pos _ hpa]
      rfl
    | false =>
      rw [List.map_cons, List.find?_cons_of_neg _ (by simp [h a, hpa]),
        List.find?_cons_of_neg _ (by simp [hpa]), ih]

theorem find_append_right {α : Type} (p : α → Bool) (l1 l2 : List α)
    (h : l1.find? p = none) : (l1 ++ l2).find? p = l2.find? p := by
  rw [List.find?_append, h, Option.none_or]

theorem plans_duration_pos (s : String) (p : Plan)
    (h : SUBSCRIPTION_PLANS s = some p) : 0 < p.duration_days := by
  unfold SUBSCRIPTION_PLANS at h
  split at h <;> (try cases h) <;> simp

theorem completeUpd_id (now : Int) (pid : Nat) (q : PaymentR) :
    (completeUpd now pid q).id = q.id := by
  unfold completeUpd; split <;> rfl

theorem completeUpd_user_id (now : Int) (pid : Nat) (q : PaymentR) :
    (completeUpd now pid q).user_id = q.user_id := by
  unfold completeUpd; split <;> rfl

theorem completeUpd_amount (now : Int) (pid : Nat) (q : PaymentR) :
    (completeUpd now pid q).amount = q.amount := by
  unfold completeUpd; split <;> rfl

theorem completeUpd_plan_type (now : Int) (pid : Nat) (q : PaymentR) :
    (completeUpd now pid q).plan_type = q.plan_type := by
  unfold completeUpd; split <;> rfl

theorem completeUpd_expires_at (now : Int) (pid : Nat) (q : PaymentR) :
    (completeUpd now pid q).expires_at = q.expires_at := by
  unfold completeUpd; split <;> rfl

theorem spendUpd_id (uid : Nat) (amt : ℚ) (u : UserR) :
    (spendUpd uid amt u).id = u.id := by
  unfold spendUpd; split <;> rfl

theorem spendUpd_referrer (uid : Nat) (amt : ℚ) (u : UserR) :
    (spendUpd uid amt u).referrer_id = u.referrer_id := by
  unfold spendUpd; split <;> rfl

theorem spendUpd_balance (uid : Nat) (amt : ℚ) (u : UserR) :
    (spendUpd uid amt u).referral_balance = u.referral_balance := by
  unfold spendUpd; split <;> rfl

theorem creditUpd_id (rid : Nat) (b : ℚ) (u : UserR) :
    (creditUpd rid b u).id = u.id := by
  unfold creditUpd; split <;> rfl

theorem creditUpd_referrer (rid : Nat) (b : ℚ) (u : UserR) :
    (creditUpd rid b u).referrer_id = u.referrer_id := by
  unfold creditUpd; split <;> rfl

theorem creditUpd_spent (rid : Nat) (b : ℚ) (u : UserR) :
    (creditUpd rid b u).total_spent = u.total_spent := by
  unfold creditUpd; split <;> rfl

theorem deactUpd_user_id (uid : Nat) (s : SubR) :
    (deactUpd uid s).user_id = s.user_id := by
  unfold deactUpd; split <;> rfl

theorem deactUpd_inactive (uid : Nat) (s : SubR)
    (h : (deactUpd uid s).user_id = uid) : (deactUpd uid s).is_active = false := by
  unfold deactUpd at h ⊢
  by_cases hc : s.user_id = uid ∧ s.is_active = true
  · rw [if_pos hc]
  · rw [if_neg hc]
    rw [if_neg hc] at h
    cases hact : s.is_active with
    | false => rfl
    | true => exact absurd ⟨h, hact⟩ hc

theorem activate_some (now : Int) (db : DB) (payment : PaymentR) (user : UserR)
    (plan : Plan) (hu : lookupUser db payment.user_id = some user)
    (hp : SUBSCRIPTION_PLANS payment.plan_type = some plan) :
    activate now db payment = some
      { users :=
          match user.referrer_id with
          | none => db.users.map (spendUpd payment.user_id payment.amount_rubles)
          | some rid =>
            (db.users.map (spendUpd payment.user_id payment.amount_rubles)).map
              (creditUpd rid ((calculate_referral_bonus payment.amount : ℚ) / 100))
        subs := db.subs.map (deactUpd payment.user_id) ++ [newSubOf now payment plan]
        payments := db.payments.map (completeUpd now payment.id) } := by
  unfold activate
  rw [hu, hp]

theorem verify_completed_eq (now : Int) (db : DB) (pid : Nat) (payment : PaymentR)
    (hf : lookupPayment db pid = some payment)
    (he : payment.is_expired now = false) :
    verify_payment now stCompleted db pid =
      match activate now db payment with
      | none => ⟨db, "error", true⟩
      | some db1 => ⟨db1, "success", true⟩ := by
  unfold verify_payment
  rw [hf]
  simp only []
  rw [if_neg (by simp [he]), if_pos (show stCompleted = "completed" from rfl)]

theorem verify_expired_eq (now : Int) (provStatus : String) (db : DB) (pid : Nat)
    (payment : PaymentR) (hf : lookupPayment db pid = some payment)
    (he : payment.is_expired now = true) :
    verify_payment now provStatus db pid = ⟨db, "timeout", false⟩ := by
  unfold verify_payment
  rw [hf]
  simp only []
  rw [if_pos he]

theorem find_payments_complete (now : Int) (pidU x : Nat) (l : List PaymentR) :
    (l.map (completeUpd now pidU)).find? (fun q => q.id = x) =
      (l.find? (fun q => q.id = x)).map (completeUpd now pidU) :=
  find_map_comm _ _ (fun a => by simp [completeUpd_id]) l

theorem find_users_spend (uid : Nat) (amt : ℚ) (x : Nat) (l : List UserR) :
    (l.map (spendUpd uid amt)).find? (fun u => u.id = x) =
      (l.find? (fun u => u.id = x)).map (spendUpd uid amt) :=
  find_map_comm _ _ (fun a => by simp [spendUpd_id]) l

theorem find_users_credit (rid : Nat) (b : ℚ) (x : Nat) (l : List UserR) :
    (l.map (creditUpd rid b)).find? (fun u => u.id = x) =
      (l.find? (fun u => u.id = x)).map (creditUpd rid b) :=
  find_map_comm _ _ (fun a => by simp [creditUpd_id]) l

theorem yoomoney_check_mem (r : Http (Option String)) :
    yoomoney_check r ∈ canonicalStatuses := by
  cases r with
  | exn => simp [yoomoney_check, canonicalStatuses]
  | ok st =>
    simp only [yoomoney_check]
    cases st with
    | none => decide
    | some s =>
      simp only []
      split
      · simp [canonicalStatuses]
      · split <;> simp [canonicalStatuses]

theorem qiwi_check_mem (r : Http (Option String)) :
    qiwi_check r ∈ canonicalStatuses := by
  cases r with
  | exn => simp [qiwi_check, canonicalStatuses]
  | ok st =>
    simp only [qiwi_check]
    cases st with
    | none => decide
    | some s =>
      simp only []
      split
      · simp [canonicalStatuses]
      · split <;> simp [canonicalStatuses]

theorem cryptomus_check_mem (r : Http (Option Int × Option String)) :
    cryptomus_check r ∈ canonicalStatuses := by
  cases r with
  | exn => simp [cryptomus_check, canonicalStatuses]
  | ok pr =>
    obtain ⟨state, ps⟩ := pr
    simp only [cryptomus_check]
    split
    · split
      · simp [canonicalStatuses]
      · split <;> simp [canonicalStatuses]
    · simp [canonicalStatuses]

/-- A method string outside the routing table of
`PaymentManager.check_payment`. -/
def methodNone : String := "card"

/-- Provider responses in which every provider interaction raises. -/
def rsProbe : ProviderResponses := ⟨Http.exn, Http.exn, Http.exn⟩

/-- C3 counterexample: the status string `zzz`, which appears in no
provider's mapping table, is mapped to `pending` by every provider's
`check_payment` — not to `unknown` as the claim states. -/
theorem c3_unmapped_not_unknown :
    yoomoney_check (Http.ok (some unmappedProbe)) = stPending ∧
    yoomoney_check (Http.ok (some unmappedProbe)) ≠ stUnknown ∧
    unmappedProbe ∉ yoomoneyMapped ∧
    (qiwi_check (Http.ok (some unmappedProbe)) = stPending ∧
      unmappedProbe ∉ qiwiMapped) ∧
    (cryptomus_check (Http.ok (some 0, some unmappedProbe)) = stPending ∧
      unmappedProbe ∉ cryptomusMapped) := by decide

/-- C3 (amended): every provider `check_payment` lands in the canonical
four-value vocabulary, and a provider status outside the explicit
mapping table is mapped to `pending` — hence never to `completed`;
`unknown` is produced only by exceptions (and, for Cryptomus, a
non-zero response `state`). -/
theorem c3_canonical_mapping :
    (∀ r, yoomoney_check r ∈ canonicalStatuses) ∧
    (∀ r, qiwi_check r ∈ canonicalStatuses) ∧
    (∀ r, cryptomus_check r ∈ canonicalStatuses) ∧
    (∀ s, s ∉ yoomoneyMapped → yoomoney_check (Http.ok (some s)) = stPending) ∧
    (∀ s, s ∉ qiwiMapped → qiwi_check (Http.ok (some s)) = stPending) ∧
    (∀ s, s ∉ cryptomusMapped →
      cryptomus_check (Http.ok (some 0, some s)) = stPending) := by
  refine ⟨yoomoney_check_mem, qiwi_check_mem, cryptomus_check_mem, ?_, ?_, ?_⟩
  · intro s hs
    simp [yoomoneyMapped] at hs
    simp [yoomoney_check, stPending, hs.1, hs.2.1, hs.2.2]
  · intro s hs
    simp [qiwiMapped] at hs
    simp [qiwi_check, stPending, hs.1, hs.2.1, hs.2.2]
  · intro s hs
    simp [cryptomusMapped] at hs
    simp [cryptomus_check, stPending, hs.1, hs.2.1, hs.2.2.1, hs.2.2.2]

/-- C3 witness: the amended mapping statement evaluated at the probe
status `zzz` and at an exception response. -/
theorem c3_canonical_mapping_witness :
    yoomoney_check (Http.ok (some unmappedProbe)) = stPending ∧
    qiwi_check (Http.ok (some unmappedProbe)) = stPending ∧
    cryptomus_check (Http.ok (some 0, some unmappedProbe)) = stPending ∧
    yoomoney_check Http.exn ∈ canonicalStatuses :=
  ⟨c3_canonical_mapping.2.2.2.1 unmappedProbe (by decide),
   c3_canonical_mapping.2.2.2.2.1 unmappedProbe (by decide),
   c3_canonical_mapping.2.2.2.2.2 unmappedProbe (by decide),
   c3_canonical_mapping.1 Http.exn⟩

/-- C10: `PaymentManager.check_payment` is total at its public
interface: for every configuration, every provider behaviour (including
raised exceptions, modelled by `Http.exn`) and every method string the
result is one of the four canonical strings; a method outside the
routing table yields `unknown`, and so does any method when no provider
client is configured. -/
theorem c10_manager_check_total (cfg : PaymentManagerCfg)
    (rs : ProviderResponses) (method : String) :
    manager_check_payment cfg rs method ∈ canonicalStatuses ∧
    (method ∉ ["yoomoney", "qiwi", "crypto"] →
      manager_check_payment cfg rs method = stUnknown) ∧
    manager_check_payment ⟨false, false, false⟩ rs method = stUnknown := by
  refine ⟨?_, ?_, ?_⟩
  · unfold manager_check_payment
    split
    · exact yoomoney_check_mem _
    · split
      · exact qiwi_check_mem _
      · split
        · exact cryptomus_check_mem _
        · decide
  · intro h
    simp at h
    unfold manager_check_payment
    rw [if_neg (by simp [h.1]), if_neg (by simp [h.2.1]), if_neg (by simp [h.2.2])]
    rfl
  · unfold manager_check_payment
    simp [stUnknown]

/-- C10 witness: the totality statement evaluated at a fully configured
manager, all-raising providers, and the out-of-table method `card`. -/
theorem c10_manager_check_total_witness :
    manager_check_payment ⟨true, true, true⟩ rsProbe methodNone = stUnknown ∧
    manager_check_payment ⟨true, true, true⟩ rsProbe methodYm ∈ canonicalStatuses :=
  ⟨(c10_manager_check_total ⟨true, true, true⟩ rsProbe methodNone).2.1 (by decide),
   (c10_manager_check_total ⟨true, true, true⟩ rsProbe methodYm).1⟩

theorem broadcastLoop_attempted (sendOk progressOk sleepOk : Nat → Bool) :
    ∀ (l : List Nat) (i : Nat),
      (broadcastLoop sendOk progressOk sleepOk i l).2.2 = l := by
  intro l
  induction l with
  | nil => intro i; rfl
  | cons u rest ih =>
    intro i
    have h := ih (i + 1)
    simp only [broadcastLoop]
    cases hs : sendOk i with
    | false => simp [hs, h]
    | true =>
      by_cases hp : (i + 1) % 50 = 0 ∧ progressOk i = false
      · simp [hs, hp, h]
      · by_cases hsl : sleepOk i = false
        · simp [hs, hp, hsl, h]
        · simp [hs, hp, hsl, h]

theorem broadcastLoop_sum_ge (sendOk progressOk sleepOk : Nat → Bool) :
    ∀ (l : List Nat) (i : Nat),
      l.length ≤ (broadcastLoop sendOk progressOk sleepOk i l).1 +
        (broadcastLoop sendOk progressOk sleepOk i l).2.1 := by
  intro l
  induction l with
  | nil => intro i; simp [broadcastLoop]
  | cons u rest ih =>
    intro i
    have h := ih (i + 1)
    simp only [broadcastLoop]
    cases hs : sendOk i with
    | false => simp [hs, List.length_cons]; omega
    | true =>
      by_cases hp : (i + 1) % 50 = 0 ∧ progressOk i = false
      · simp [hs, hp, List.length_cons]; omega
      · by_cases hsl : sleepOk i = false
        · simp [hs, hp, hsl, List.length_cons]; omega
        · simp [hs, hp, hsl, List.length_cons]; omega

theorem broadcastLoop_sum_eq (sendOk progressOk sleepOk : Nat → Bool)
    (hprog : ∀ i, progressOk i = true) (hsleep : ∀ i, sleepOk i = true) :
    ∀ (l : List Nat) (i : Nat),
      (broadcastLoop sendOk progressOk sleepOk i l).1 +
        (broadcastLoop sendOk progressOk sleepOk i l).2.1 = l.length := by
  intro l
  induction l with
  | nil => intro i; rfl
  | cons u rest ih =>
    intro i
    have h := ih (i + 1)
    have hp : ¬((i + 1) % 50 = 0 ∧ progressOk i = false) := by simp [hprog i]
    have hsl : ¬(sleepOk i = false) := by simp [hsleep i]
    simp only [broadcastLoop]
    cases hs : sendOk i <;> simp [hs, hp, hsl, List.length_cons] <;> omega

/-- A store holding 100 users with telegram ids 1..100, for the
broadcast scenario of §8. -/
def db100 : DB :=
  { users := (List.range 100).map (fun k =>
      { id := k + 1, telegram_id := k + 1, referrer_id := none,
        referral_balance := 0, total_referrals := 0, total_spent := 0 })
    subs := []
    payments := [] }

/-- An operation that never raises. -/
def alwaysOk : Nat → Bool := fun _ => true

/-- An operation that raises whenever it is attempted. -/
def alwaysRaises : Nat → Bool := fun _ => false

/-- C9 counterexample: with all 100 sends succeeding but the every-50th
progress `edit_message_text` raising (it sits inside the same
per-recipient `try`, after `sent_count += 1`), the two progress edits at
iterations 50 and 100 are each counted in `failed` after an
already-counted successful send: the report is `sent = 100`,
`failed = 2`, `total = 100`, so `sent + failed = total` fails — it is
not an invariant of the program. -/
theorem c9_progress_edit_breaks_count :
    ((admin_broadcast_confirm alwaysOk alwaysRaises alwaysOk db100).1 =
      ⟨100, 2, 100⟩) ∧
    ¬((admin_broadcast_confirm alwaysOk alwaysRaises alwaysOk db100).1.sent +
        (admin_broadcast_confirm alwaysOk alwaysRaises alwaysOk db100).1.failed =
      (admin_broadcast_confirm alwaysOk alwaysRaises alwaysOk db100).1.total) := by
  decide

/-- C9 (amended): the dispatcher attempts a send to every recipient —
any per-recipient exception is caught, counted in `failed`, and never
aborts the remaining sends — and `sent + failed ≥ total` always holds,
with equality whenever no post-send operation (the every-50th progress
edit or the pacing sleep, both inside the same `try` after
`sent_count += 1`) raises; a post-send failure after a counted success
increments `failed` too, so the claimed equality is not unconditional.
In the 100-recipient scenario with every 10th send failing (and the
post-send operations sound) the report is `sent = 90`, `failed = 10`,
`total = 100` and all 100 recipients were attempted in order. -/
theorem c9_broadcast_attempt_all :
    (∀ (sendOk progressOk sleepOk : Nat → Bool) (db : DB),
      (admin_broadcast_confirm sendOk progressOk sleepOk db).1.total =
        db.users.length ∧
      (admin_broadcast_confirm sendOk progressOk sleepOk db).2 =
        db.users.map (fun u => u.telegram_id) ∧
      (admin_broadcast_confirm sendOk progressOk sleepOk db).1.total ≤
        (admin_broadcast_confirm sendOk progressOk sleepOk db).1.sent +
          (admin_broadcast_confirm sendOk progressOk sleepOk db).1.failed ∧
      ((∀ i, progressOk i = true) → (∀ i, sleepOk i = true) →
        (admin_broadcast_confirm sendOk progressOk sleepOk db).1.sent +
            (admin_broadcast_confirm sendOk progressOk sleepOk db).1.failed =
          (admin_broadcast_confirm sendOk progressOk sleepOk db).1.total)) ∧
    ((admin_broadcast_confirm (fun i => (i + 1) % 10 != 0) alwaysOk alwaysOk
        db100).1 = ⟨90, 10, 100⟩ ∧
      (admin_broadcast_confirm (fun i => (i + 1) % 10 != 0) alwaysOk alwaysOk
        db100).2 = (List.range 100).map (fun k => k + 1)) := by
  constructor
  · intro sendOk progressOk sleepOk db
    have hatt := broadcastLoop_attempted sendOk progressOk sleepOk
      (db.users.map (fun u => u.telegram_id)) 0
    have hge := broadcastLoop_sum_ge sendOk progressOk sleepOk
      (db.users.map (fun u => u.telegram_id)) 0
    refine ⟨rfl, ?_, ?_, ?_⟩
    · simpa [admin_broadcast_confirm] using hatt
    · simpa [admin_broadcast_confirm, List.length_map] using hge
    · intro hprog hsleep
      have heq := broadcastLoop_sum_eq sendOk progressOk sleepOk hprog hsleep
        (db.users.map (fun u => u.telegram_id)) 0
      simpa [admin_broadcast_confirm, List.length_map] using heq
  · constructor <;> decide

/-- C9 witness: the amended statement evaluated on `db100` with every
10th send failing and sound post-send operations. -/
theorem c9_broadcast_attempt_all_witness :
    (admin_broadcast_confirm (fun i => (i + 1) % 10 != 0) alwaysOk alwaysOk
        db100).1.sent +
      (admin_broadcast_confirm (fun i => (i + 1) % 10 != 0) alwaysOk alwaysOk
        db100).1.failed =
      (admin_broadcast_confirm (fun i => (i + 1) % 10 != 0) alwaysOk alwaysOk
        db100).1.total :=
  ((c9_broadcast_attempt_all.1 (fun i => (i + 1) % 10 != 0) alwaysOk alwaysOk
    db100).2.2.2) (fun _ => rfl) (fun _ => rfl)

/-- The pending, already-expired intent used in the C5 instances:
status `pending`, `expires_at = 900`, verified at `now = 1000`. -/
def c5payment : PaymentR :=
  { id := 1, user_id := 7, amount := 29900, plan_type := plan1m,
    payment_method := methodYm, payment_ext_id := none, payment_url := none,
    status := stPending, created_at := 0, completed_at := none,
    expires_at := some 900 }

/-- A store holding only the expired pending intent `c5payment`. -/
def c5db : DB := ⟨[], [], [c5payment]⟩

/-- C5 counterexample: verifying an expired pending intent does not
transition its stored status to `expired` — the stored status remains
`pending` (the provider is indeed not contacted). -/
theorem c5_expired_status_unchanged :
    (verify_payment 1000 stCompleted c5db 1).providerChecked = false ∧
    ((lookupPayment (verify_payment 1000 stCompleted c5db 1).db 1).map
        (fun q => q.status) = some stPending) ∧
    ¬((lookupPayment (verify_payment 1000 stCompleted c5db 1).db 1).map
        (fun q => q.status) = some stExpired) := by decide

/-- C5 (amended): for every pending intent whose `expires_at` lies in
the past, `verify_payment` returns a timeout outcome without invoking
the provider's check and without writing to the store — in particular
the stored status remains `pending`; no `expired` status is ever
written. -/
theorem c5_expiry_short_circuit :
    ∀ (now : Int) (provStatus : String) (db : DB) (pid : Nat)
      (payment : PaymentR),
      lookupPayment db pid = some payment →
      payment.status = stPending →
      payment.is_expired now = true →
      verify_payment now provStatus db pid = ⟨db, "timeout", false⟩ ∧
      ((lookupPayment (verify_payment now provStatus db pid).db pid).map
          (fun q => q.status) = some stPending) := by
  intro now provStatus db pid payment hf hst he
  have h := verify_expired_eq now provStatus db pid payment hf he
  refine ⟨h, ?_⟩
  rw [h]
  simp [hf, hst]

/-- C5 witness: the short-circuit statement evaluated on the concrete
expired intent `c5payment`. -/
theorem c5_expiry_short_circuit_witness :
    verify_payment 1000 stCompleted c5db 1 = ⟨c5db, "timeout", false⟩ ∧
    ((lookupPayment (verify_payment 1000 stCompleted c5db 1).db 1).map
        (fun q => q.status) = some stPending) :=
  c5_expiry_short_circuit 1000 stCompleted c5db 1 c5payment (by decide)
    (by decide) (by decide)

theorem deact_filter_nil (uid : Nat) (l : List SubR) (p : SubR → Bool)
    (hp : ∀ s, p s = true → s.user_id = uid ∧ s.is_active = true) :
    (l.map (deactUpd uid)).filter p = [] := by
  rw [List.filter_eq_nil_iff]
  intro a ha hpa
  obtain ⟨s0, hs0, rfl⟩ := List.mem_map.mp ha
  obtain ⟨hui, hact⟩ := hp _ hpa
  rw [deactUpd_inactive uid s0 hui] at hact
  cases hact

/-- C2: a completed activation leaves the activating user with at most
one subscription having `is_active = true` — and hence at most one with
`is_active = true` and `end_date` in the future — because the handler
deactivates every prior active subscription of that user in the same
session commit that inserts the new one. -/
theorem c2_single_active_subscription :
    ∀ (now : Int) (db : DB) (pid : Nat) (payment : PaymentR) (user : UserR)
      (plan : Plan),
      lookupPayment db pid = some payment →
      payment.is_expired now = false →
      lookupUser db payment.user_id = some user →
      SUBSCRIPTION_PLANS payment.plan_type = some plan →
      ((verify_payment now stCompleted db pid).db.subs.filter
          (fun s => s.user_id = payment.user_id ∧ s.is_active = true)).length ≤ 1 ∧
      (activeFreshSubs (verify_payment now stCompleted db pid).db
          payment.user_id now).length ≤ 1 := by
  intro now db pid payment user plan hf he hu hp
  rw [verify_completed_eq now db pid payment hf he,
    activate_some now db payment user plan hu hp]
  simp only [activeFreshSubs]
  constructor
  · rw [List.filter_append,
      deact_filter_nil payment.user_id db.subs _ (by intro s hs; simpa using hs),
      List.nil_append]
    exact le_trans (List.length_filter_le _ _) (by rfl)
  · rw [List.filter_append,
      deact_filter_nil payment.user_id db.subs _
        (by intro s hs; simp at hs; exact ⟨hs.1, hs.2.1⟩),
      List.nil_append]
    exact le_trans (List.length_filter_le _ _) (by rfl)

/-- The user row of the C2 instance. -/
def c2user : UserR :=
  { id := 7, telegram_id := 70, referrer_id := none, referral_balance := 0,
    total_referrals := 0, total_spent := 0 }

/-- The pending intent of the C2 instance. -/
def c2payment : PaymentR :=
  { id := 1, user_id := 7, amount := 29900, plan_type := plan1m,
    payment_method := methodYm, payment_ext_id := none, payment_url := none,
    status := stPending, created_at := 0, completed_at := none,
    expires_at := some 900 }

/-- A store with one user who already holds an active subscription and
one pending intent, for the C2 instance. -/
def c2db : DB :=
  { users := [c2user]
    subs := [⟨7, plan1m, -100, 500000, true⟩]
    payments := [c2payment] }

/-- C2 witness: the uniqueness statement evaluated on `c2db`, where the
user starts with a prior active subscription. -/
theorem c2_single_active_subscription_witness :
    ((verify_payment 0 stCompleted c2db 1).db.subs.filter
        (fun s => s.user_id = c2payment.user_id ∧ s.is_active = true)).length ≤ 1 ∧
    (activeFreshSubs (verify_payment 0 stCompleted c2db 1).db
        c2payment.user_id 0).length ≤ 1 :=
  c2_single_active_subscription 0 c2db 1 c2payment c2user ⟨299, 30⟩
    (by decide) (by decide) (by decide) (by decide)

theorem lookupUser_some_id (db : DB) (uid : Nat) (u : UserR)
    (h : lookupUser db uid = some u) : u.id = uid := by
  have := List.find?_some h
  simpa using this

theorem lookupPayment_some_id (db : DB) (pid : Nat) (q : PaymentR)
    (h : lookupPayment db pid = some q) : q.id = pid := by
  have := List.find?_some h
  simpa using this

theorem verify_credit_balance (now : Int) (db : DB) (pid : Nat)
    (payment : PaymentR) (user : UserR) (plan : Plan) (rid : Nat)
    (hf : lookupPayment db pid = some payment)
    (he : payment.is_expired now = false)
    (hu : lookupUser db payment.user_id = some user)
    (hp : SUBSCRIPTION_PLANS payment.plan_type = some plan)
    (href : user.referrer_id = some rid) :
    (lookupUser (verify_payment now stCompleted db pid).db rid).map
        (fun u => u.referral_balance) =
      (lookupUser db rid).map
        (fun u => u.referral_balance +
          (calculate_referral_bonus payment.amount : ℚ) / 100) := by
  rw [verify_completed_eq now db pid payment hf he,
    activate_some now db payment user plan hu hp]
  simp only [lookupUser, href]
  rw [find_users_credit, find_users_spend]
  cases hr : db.users.find? (fun u => u.id = rid) with
  | none => rfl
  | some r =>
    have hid : r.id = rid := by simpa using List.find?_some hr
    simp [creditUpd, spendUpd_id, spendUpd_balance, hid]

/-- C6 (amended): for a completed intent whose user has a referrer, the
amount credited to the referrer's (ruble-denominated) balance is
`calculate_referral_bonus(amount) / 100` — the floor-division bonus in
kopecks converted to rubles — not the kopeck value itself; for
amount = 29900 and bonus percent = 10 the kopeck bonus is exactly 2990,
so the balance is credited 29.9. -/
theorem c6_referral_credit :
    ∀ (now : Int) (db : DB) (pid : Nat) (payment : PaymentR) (user : UserR)
      (plan : Plan) (rid : Nat),
      lookupPayment db pid = some payment →
      payment.is_expired now = false →
      lookupUser db payment.user_id = some user →
      SUBSCRIPTION_PLANS payment.plan_type = some plan →
      user.referrer_id = some rid →
      ((lookupUser (verify_payment now stCompleted db pid).db rid).map
          (fun u => u.referral_balance) =
        (lookupUser db rid).map
          (fun u => u.referral_balance +
            (calculate_referral_bonus payment.amount : ℚ) / 100)) ∧
      calculate_referral_bonus 29900 = 2990 := by
  intro now db pid payment user plan rid hf he hu hp href
  exact ⟨verify_credit_balance now db pid payment user plan rid hf he hu hp href,
    by decide⟩

/-- The paying user of the C6 and C7 instances: referred by user 9. -/
def c6user : UserR :=
  { id := 7, telegram_id := 70, referrer_id := some 9, referral_balance := 0,
    total_referrals := 0, total_spent := 0 }

/-- The referrer of the C6 and C7 instances, with zero starting
balance. -/
def c6referrer : UserR :=
  { id := 9, telegram_id := 90, referrer_id := none, referral_balance := 0,
    total_referrals := 1, total_spent := 0 }

/-- The pending 29900-kopeck intent of the C6 and C7 instances. -/
def c6payment : PaymentR :=
  { id := 1, user_id := 7, amount := 29900, plan_type := plan1m,
    payment_method := methodYm, payment_ext_id := none, payment_url := none,
    status := stPending, created_at := 0, completed_at := none,
    expires_at := some 900 }

/-- A store with a referred user, their referrer, and a pending
29900-kopeck intent. -/
def c6db : DB := ⟨[c6user, c6referrer], [], [c6payment]⟩

/-- C6 counterexample: completing the 29900-kopeck intent credits the
referrer's balance with 299/10 (= 29.9, the 2990-kopeck bonus divided
by 100), not with 2990 as the claim states. -/
theorem c6_credited_in_rubles :
    ((lookupUser (verify_payment 0 stCompleted c6db 1).db 9).map
        (fun u => u.referral_balance) = some (299 / 10 : ℚ)) ∧
    ¬((lookupUser (verify_payment 0 stCompleted c6db 1).db 9).map
        (fun u => u.referral_balance) = some (2990 : ℚ)) := by
  have h := verify_credit_balance 0 c6db 1 c6payment c6user ⟨299, 30⟩ 9
    (by decide) (by decide) (by decide) (by decide) (by decide)
  have hb : calculate_referral_bonus c6payment.amount = 2990 := by decide
  have hl : lookupUser c6db 9 = some c6referrer := by decide
  rw [h, hl, hb]
  constructor
  · show some ((c6referrer.referral_balance + (2990 : ℚ) / 100)) = some (299 / 10 : ℚ)
    norm_num [c6referrer]
  · show ¬(some ((c6referrer.referral_balance + (2990 : ℚ) / 100)) = some (2990 : ℚ))
    norm_num [c6referrer]

/-- C6 witness: the credit statement evaluated on the concrete store
`c6db`. -/
theorem c6_referral_credit_witness :
    ((lookupUser (verify_payment 0 stCompleted c6db 1).db 9).map
        (fun u => u.referral_balance) =
      (lookupUser c6db 9).map
        (fun u => u.referral_balance +
          (calculate_referral_bonus c6payment.amount : ℚ) / 100)) ∧
    calculate_referral_bonus 29900 = 2990 :=
  c6_referral_credit 0 c6db 1 c6payment c6user ⟨299, 30⟩ 9 (by decide)
    (by decide) (by decide) (by decide) (by decide)

theorem is_expired_completeUpd (t now : Int) (pid : Nat) (q : PaymentR) :
    (completeUpd t pid q).is_expired now = q.is_expired now := by
  unfold PaymentR.is_expired
  rw [completeUpd_expires_at]

theorem amount_rubles_completeUpd (t : Int) (pid : Nat) (q : PaymentR) :
    (completeUpd t pid q).amount_rubles = q.amount_rubles := by
  unfold PaymentR.amount_rubles
  rw [completeUpd_amount]

theorem verify_completed_subs_len (now : Int) (db : DB) (pid : Nat)
    (payment : PaymentR) (user : UserR) (plan : Plan)
    (hf : lookupPayment db pid = some payment)
    (he : payment.is_expired now = false)
    (hu : lookupUser db payment.user_id = some user)
    (hp : SUBSCRIPTION_PLANS payment.plan_type = some plan) :
    (verify_payment now stCompleted db pid).db.subs.length =
      db.subs.length + 1 := by
  rw [verify_completed_eq now db pid payment hf he,
    activate_some now db payment user plan hu hp]
  simp [List.length_append, List.length_map]

theorem verify_completed_lookupPayment (now : Int) (db : DB) (pid : Nat)
    (payment : PaymentR) (user : UserR) (plan : Plan)
    (hf : lookupPayment db pid = some payment)
    (he : payment.is_expired now = false)
    (hu : lookupUser db payment.user_id = some user)
    (hp : SUBSCRIPTION_PLANS payment.plan_type = some plan) :
    lookupPayment (verify_payment now stCompleted db pid).db pid =
      some (completeUpd now payment.id payment) := by
  rw [verify_completed_eq now db pid payment hf he,
    activate_some now db payment user plan hu hp]
  simp only [lookupPayment]
  rw [find_payments_complete]
  unfold lookupPayment at hf
  rw [hf]
  rfl

theorem verify_completed_users (now : Int) (db : DB) (pid : Nat)
    (payment : PaymentR) (user : UserR) (plan : Plan) (rid : Nat)
    (hf : lookupPayment db pid = some payment)
    (he : payment.is_expired now = false)
    (hu : lookupUser db payment.user_id = some user)
    (hp : SUBSCRIPTION_PLANS payment.plan_type = some plan)
    (href : user.referrer_id = some rid) (x : Nat) :
    lookupUser (verify_payment now stCompleted db pid).db x =
      ((lookupUser db x).map
          (spendUpd payment.user_id payment.amount_rubles)).map
        (creditUpd rid ((calculate_referral_bonus payment.amount : ℚ) / 100)) := by
  rw [verify_completed_eq now db pid payment hf he,
    activate_some now db payment user plan hu hp]
  simp only [lookupUser, href]
  rw [find_users_credit, find_users_spend]

theorem verify_completed_spent (now : Int) (db : DB) (pid : Nat)
    (payment : PaymentR) (user : UserR) (plan : Plan)
    (hf : lookupPayment db pid = some payment)
    (he : payment.is_expired now = false)
    (hu : lookupUser db payment.user_id = some user)
    (hp : SUBSCRIPTION_PLANS payment.plan_type = some plan) :
    (lookupUser (verify_payment now stCompleted db pid).db payment.user_id).map
        (fun u => u.total_spent) =
      some (user.total_spent + payment.amount_rubles) := by
  have hid : user.id = payment.user_id := lookupUser_some_id db payment.user_id user hu
  rw [verify_completed_eq now db pid payment hf he,
    activate_some now db payment user plan hu hp]
  simp only [lookupUser]
  cases href : user.referrer_id with
  | none =>
    simp only []
    rw [find_users_spend]
    unfold lookupUser at hu
    rw [hu]
    simp [spendUpd, hid]
  | some rid =>
    simp only []
    rw [find_users_credit, find_users_spend]
    unfold lookupUser at hu
    rw [hu]
    simp [creditUpd_spent, spendUpd, hid]

/-- C1 (amended): `verify_payment` never consults the stored status —
whenever the intent is unexpired and the provider reports `completed`,
every call performs a full activation, even when the stored status is
already the terminal `completed`: the provider is contacted again, a
further subscription row is added and the user's `total_spent` is
incremented again.  The stored outcome is returned without a provider
call only for time-expired intents. -/
theorem c1_reverify_reactivates :
    ∀ (now : Int) (db : DB) (pid : Nat) (payment : PaymentR) (user : UserR)
      (plan : Plan),
      lookupPayment db pid = some payment →
      payment.status = stCompleted →
      payment.is_expired now = false →
      lookupUser db payment.user_id = some user →
      SUBSCRIPTION_PLANS payment.plan_type = some plan →
      (verify_payment now stCompleted db pid).providerChecked = true ∧
      (verify_payment now stCompleted db pid).db.subs.length =
        db.subs.length + 1 ∧
      ((lookupUser (verify_payment now stCompleted db pid).db
            payment.user_id).map (fun u => u.total_spent) =
        some (user.total_spent + payment.amount_rubles)) := by
  intro now db pid payment user plan hf hst he hu hp
  refine ⟨?_, verify_completed_subs_len now db pid payment user plan hf he hu hp,
    verify_completed_spent now db pid payment user plan hf he hu hp⟩
  rw [verify_completed_eq now db pid payment hf he,
    activate_some now db payment user plan hu hp]

/-- The paying user of the C1 instance: referred by user 9, with
`total_spent = 299` from the first (already completed) activation. -/
def c1user : UserR :=
  { id := 7, telegram_id := 70, referrer_id := some 9, referral_balance := 0,
    total_referrals := 0, total_spent := 299 }

/-- The referrer of the C1 instance, already credited 29.9 by the first
activation. -/
def c1referrer : UserR :=
  { id := 9, telegram_id := 90, referrer_id := none,
    referral_balance := 299 / 10, total_referrals := 1, total_spent := 0 }

/-- The C1 intent: stored status already terminal (`completed`), within
its expiry window. -/
def c1payment : PaymentR :=
  { id := 1, user_id := 7, amount := 29900, plan_type := plan1m,
    payment_method := methodYm, payment_ext_id := none, payment_url := none,
    status := stCompleted, created_at := -10, completed_at := some (-5),
    expires_at := some 900 }

/-- The C1 store: the intent was already completed once — one
subscription exists, the referrer was credited, `total_spent` counted. -/
def c1db : DB :=
  { users := [c1user, c1referrer]
    subs := [⟨7, plan1m, -10, 2591990, true⟩]
    payments := [c1payment] }

/-- C1 counterexample: re-verifying the already-completed intent `1` of
`c1db` (provider still reporting `completed`) performs a second
activation: the subscription count rises from 1 to 2 and the referrer's
balance rises from 29.9 to 59.8 — verify is not an idempotent read on
terminal intents. -/
theorem c1_terminal_reverify_mutates :
    ((lookupPayment c1db 1).map (fun q => q.status) = some stCompleted) ∧
    c1db.subs.length = 1 ∧
    (verify_payment 0 stCompleted c1db 1).db.subs.length = 2 ∧
    ((lookupUser c1db 9).map (fun u => u.referral_balance) =
      some (299 / 10 : ℚ)) ∧
    ((lookupUser (verify_payment 0 stCompleted c1db 1).db 9).map
        (fun u => u.referral_balance) = some (299 / 5 : ℚ)) := by
  refine ⟨rfl, rfl, ?_, rfl, ?_⟩
  · have h := verify_completed_subs_len 0 c1db 1 c1payment c1user ⟨299, 30⟩
      rfl rfl rfl rfl
    simpa [c1db] using h
  · have h := verify_completed_users 0 c1db 1 c1payment c1user ⟨299, 30⟩ 9
      rfl rfl rfl rfl rfl 9
    have hl : lookupUser c1db 9 = some c1referrer := rfl
    have hb : calculate_referral_bonus c1payment.amount = 2990 := by decide
    rw [h, hl, hb]
    show some ((creditUpd 9 ((2990 : ℚ) / 100)
        (spendUpd c1payment.user_id c1payment.amount_rubles c1referrer)).referral_balance) =
      some (299 / 5 : ℚ)
    rw [Option.some_inj]
    rw [show (creditUpd 9 ((2990 : ℚ) / 100)
        (spendUpd c1payment.user_id c1payment.amount_rubles c1referrer)).referral_balance =
      (spendUpd c1payment.user_id c1payment.amount_rubles c1referrer).referral_balance
        + (2990 : ℚ) / 100 from by
        unfold creditUpd
        rw [if_pos (by rw [spendUpd_id]; rfl)]]
    rw [spendUpd_balance]
    show (299 / 10 : ℚ) + 2990 / 100 = 299 / 5
    norm_num

/-- C1 witness: the re-activation statement evaluated on the concrete
store `c1db`, whose intent is already `completed`. -/
theorem c1_reverify_reactivates_witness :
    (verify_payment 0 stCompleted c1db 1).providerChecked = true ∧
    (verify_payment 0 stCompleted c1db 1).db.subs.length =
      c1db.subs.length + 1 ∧
    ((lookupUser (verify_payment 0 stCompleted c1db 1).db
          c1payment.user_id).map (fun u => u.total_spent) =
      some (c1user.total_spent + c1payment.amount_rubles)) :=
  c1_reverify_reactivates 0 c1db 1 c1payment c1user ⟨299, 30⟩ rfl rfl rfl rfl rfl

theorem double_verify_spec (now : Int) (db : DB) (pid : Nat)
    (payment : PaymentR) (user : UserR) (plan : Plan) (rid : Nat)
    (hf : lookupPayment db pid = some payment)
    (he : payment.is_expired now = false)
    (hu : lookupUser db payment.user_id = some user)
    (hp : SUBSCRIPTION_PLANS payment.plan_type = some plan)
    (href : user.referrer_id = some rid) :
    (verify_payment now stCompleted
        (verify_payment now stCompleted db pid).db pid).db.subs.length =
      db.subs.length + 2 ∧
    ((lookupUser (verify_payment now stCompleted
          (verify_payment now stCompleted db pid).db pid).db rid).map
        (fun u => u.referral_balance) =
      (lookupUser db rid).map
        (fun u => u.referral_balance +
          (calculate_referral_bonus payment.amount : ℚ) / 100 +
          (calculate_referral_bonus payment.amount : ℚ) / 100)) := by
  have hf1 := verify_completed_lookupPayment now db pid payment user plan hf he hu hp
  have he1 : (completeUpd now payment.id payment).is_expired now = false := by
    rw [is_expired_completeUpd]; exact he
  have hu1 : lookupUser (verify_payment now stCompleted db pid).db
      (completeUpd now payment.id payment).user_id =
      some (creditUpd rid ((calculate_referral_bonus payment.amount : ℚ) / 100)
        (spendUpd payment.user_id payment.amount_rubles user)) := by
    rw [completeUpd_user_id]
    have := verify_completed_users now db pid payment user plan rid hf he hu hp
      href payment.user_id
    rw [this, hu]
    rfl
  have hp1 : SUBSCRIPTION_PLANS (completeUpd now payment.id payment).plan_type =
      some plan := by rw [completeUpd_plan_type]; exact hp
  have href1 : (creditUpd rid ((calculate_referral_bonus payment.amount : ℚ) / 100)
      (spendUpd payment.user_id payment.amount_rubles user)).referrer_id =
      some rid := by rw [creditUpd_referrer, spendUpd_referrer]; exact href
  constructor
  · have l1 := verify_completed_subs_len now db pid payment user plan hf he hu hp
    have l2 := verify_completed_subs_len now
      (verify_payment now stCompleted db pid).db pid
      (completeUpd now payment.id payment) _ plan hf1 he1 hu1 hp1
    rw [l2, l1]
  · have m1 := verify_completed_users now db pid payment user plan rid
      hf he hu hp href rid
    have m2 := verify_completed_users now
      (verify_payment now stCompleted db pid).db pid
      (completeUpd now payment.id payment) _ plan rid hf1 he1 hu1 hp1 href1 rid
    rw [m2, m1, completeUpd_user_id, amount_rubles_completeUpd, completeUpd_amount]
    cases hr : lookupUser db rid with
    | none => rfl
    | some r =>
      have hid : r.id = rid := lookupUser_some_id db rid r hr
      simp [creditUpd, spendUpd_id, creditUpd_id, spendUpd_balance, hid]

/-- C7 (amended): two `verify` calls on the same pending intent, both
observing the provider report `completed` — one legal schedule of two
concurrent callers, and what the naive read-then-write code produces,
having no conditional update or per-intent lock — BOTH perform
activation: the store gains two subscriptions and the referrer's
balance is credited twice. -/
theorem c7_double_verify_double_activation :
    ∀ (now : Int) (db : DB) (pid : Nat) (payment : PaymentR) (user : UserR)
      (plan : Plan) (rid : Nat),
      lookupPayment db pid = some payment →
      payment.is_expired now = false →
      lookupUser db payment.user_id = some user →
      SUBSCRIPTION_PLANS payment.plan_type = some plan →
      user.referrer_id = some rid →
      (verify_payment now stCompleted
          (verify_payment now stCompleted db pid).db pid).db.subs.length =
        db.subs.length + 2 ∧
      ((lookupUser (verify_payment now stCompleted
            (verify_payment now stCompleted db pid).db pid).db rid).map
          (fun u => u.referral_balance) =
        (lookupUser db rid).map
          (fun u => u.referral_balance +
            (calculate_referral_bonus payment.amount : ℚ) / 100 +
            (calculate_referral_bonus payment.amount : ℚ) / 100)) := by
  intro now db pid payment user plan rid hf he hu hp href
  exact double_verify_spec now db pid payment user plan rid hf he hu hp href

/-- C7 counterexample: on the store `c6db` (no subscriptions, a pending
intent, a referrer with zero balance), two verify calls that both
observe the provider report `completed` — a legal schedule of two
simultaneous callers under the code's read-then-write — leave TWO
subscriptions and a doubly-credited referrer, refuting the claimed
exactly-one activation. -/
theorem c7_both_callers_activate :
    c6db.subs.length = 0 ∧
    (verify_payment 0 stCompleted
        (verify_payment 0 stCompleted c6db 1).db 1).db.subs.length = 2 ∧
    ((lookupUser c6db 9).map (fun u => u.referral_balance) = some (0 : ℚ)) ∧
    ((lookupUser (verify_payment 0 stCompleted
          (verify_payment 0 stCompleted c6db 1).db 1).db 9).map
        (fun u => u.referral_balance) = some (299 / 5 : ℚ)) := by
  have h := double_verify_spec 0 c6db 1 c6payment c6user ⟨299, 30⟩ 9
    rfl rfl rfl rfl rfl
  refine ⟨rfl, by simpa [c6db] using h.1, rfl, ?_⟩
  have hb : calculate_referral_bonus c6payment.amount = 2990 := by decide
  have hl : lookupUser c6db 9 = some c6referrer := rfl
  rw [h.2, hl]
  show some (c6referrer.referral_balance +
      (calculate_referral_bonus c6payment.amount : ℚ) / 100 +
      (calculate_referral_bonus c6payment.amount : ℚ) / 100) =
    some (299 / 5 : ℚ)
  rw [Option.some_inj, hb]
  norm_num [c6referrer]

/-- C7 witness: the double-activation statement evaluated on the
concrete store `c6db`. -/
theorem c7_double_verify_double_activation_witness :
    (verify_payment 0 stCompleted
        (verify_payment 0 stCompleted c6db 1).db 1).db.subs.length =
      c6db.subs.length + 2 ∧
    ((lookupUser (verify_payment 0 stCompleted
          (verify_payment 0 stCompleted c6db 1).db 1).db 9).map
        (fun u => u.referral_balance) =
      (lookupUser c6db 9).map
        (fun u => u.referral_balance +
          (calculate_referral_bonus c6payment.amount : ℚ) / 100 +
          (calculate_referral_bonus c6payment.amount : ℚ) / 100)) :=
  c7_double_verify_double_activation 0 c6db 1 c6payment c6user ⟨299, 30⟩ 9
    rfl rfl rfl rfl rfl

theorem extUpd_id (pid : Nat) (extId url : String) (q : PaymentR) :
    (extUpd pid extId url q).id = q.id := by
  unfold extUpd; split <;> rfl

theorem extUpd_amount (pid : Nat) (extId url : String) (q : PaymentR) :
    (extUpd pid extId url q).amount = q.amount := by
  unfold extUpd; split <;> rfl

theorem extUpd_status (pid : Nat) (extId url : String) (q : PaymentR) :
    (extUpd pid extId url q).status = q.status := by
  unfold extUpd; split <;> rfl

theorem extUpd_created_at (pid : Nat) (extId url : String) (q : PaymentR) :
    (extUpd pid extId url q).created_at = q.created_at := by
  unfold extUpd; split <;> rfl

theorem extUpd_expires_at (pid : Nat) (extId url : String) (q : PaymentR) :
    (extUpd pid extId url q).expires_at = q.expires_at := by
  unfold extUpd; split <;> rfl

theorem find_payments_ext (pid : Nat) (extId url : String) (x : Nat)
    (l : List PaymentR) :
    (l.map (extUpd pid extId url)).find? (fun q => q.id = x) =
      (l.find? (fun q => q.id = x)).map (extUpd pid extId url) :=
  find_map_comm _ _ (fun a => by simp [extUpd_id]) l

/-- C8: for every known plan, `process_payment` persists an intent whose
stored amount is exactly `plan.price * 100` (an integer number of
kopecks), with the default status `pending` and
`expires_at = created_at + 15 minutes`, and the persist event precedes
the provider create call in the handler's trace — for either provider
outcome. -/
theorem c8_create_intent :
    ∀ (planType : String) (plan : Plan),
      SUBSCRIPTION_PLANS planType = some plan →
      ∀ (now : Int) (db : DB) (pid uid : Nat) (method : String)
        (prov : Except Unit (String × String)),
        (∀ q ∈ db.payments, q.id ≠ pid) →
        (∃ q : PaymentR,
          lookupPayment (process_payment now db pid uid planType method prov).db pid
              = some q ∧
            q.amount = plan.price * 100 ∧
            q.status = stPending ∧
            q.created_at = now ∧
            q.expires_at = some (q.created_at + 900)) ∧
        (process_payment now db pid uid planType method prov).events.take 2 =
          [PEvent.persistIntent pid, PEvent.providerCreate] := by
  intro planType plan hplan now db pid uid method prov hfresh
  have hnone : db.payments.find? (fun q => q.id = pid) = none :=
    List.find?_eq_none.mpr (by intro a ha; simpa using hfresh a ha)
  unfold process_payment
  rw [hplan]
  cases prov with
  | error e =>
    refine ⟨⟨newIntent now pid uid planType method plan, ?_, rfl, rfl, rfl, rfl⟩, rfl⟩
    unfold lookupPayment
    simp only []
    rw [find_append_right _ _ _ hnone,
      List.find?_cons_of_pos _ (by simp [newIntent])]
  | ok pr =>
    obtain ⟨extId, url⟩ := pr
    refine ⟨⟨extUpd pid extId url (newIntent now pid uid planType method plan), ?_,
      by rw [extUpd_amount]; rfl, by rw [extUpd_status]; rfl,
      by rw [extUpd_created_at]; rfl,
      by rw [extUpd_expires_at, extUpd_created_at]; rfl⟩, rfl⟩
    unfold lookupPayment
    simp only []
    rw [find_payments_ext, find_append_right _ _ _ hnone,
      List.find?_cons_of_pos _ (by simp [newIntent])]
    rfl

/-- C8 witness: the intent-creation statement evaluated at the
one-month plan, an empty store and a failing provider. -/
theorem c8_create_intent_witness :
    SUBSCRIPTION_PLANS plan1m = some ⟨299, 30⟩ ∧
    ((∃ q : PaymentR,
        lookupPayment (process_payment 0 emptyDB 1 7 plan1m methodYm
            (Except.error ())).db 1 = some q ∧
          q.amount = Plan.price ⟨299, 30⟩ * 100 ∧
          q.status = stPending ∧
          q.created_at = 0 ∧
          q.expires_at = some (q.created_at + 900)) ∧
      (process_payment 0 emptyDB 1 7 plan1m methodYm
          (Except.error ())).events.take 2 =
        [PEvent.persistIntent 1, PEvent.providerCreate]) :=
  ⟨by decide,
   c8_create_intent plan1m ⟨299, 30⟩ (by decide) 0 emptyDB 1 7 methodYm
     (Except.error ()) (by intro q hq; cases hq)⟩

/-- C4 counterexample: with a failing provider create call, the
persisted intent keeps status `pending`; it is not marked `failed` as
the claim states. -/
theorem c4_failed_create_leaves_pending :
    ((lookupPayment (process_payment 0 emptyDB 1 7 plan1m methodYm
          (Except.error ())).db 1).map (fun q => q.status) = some stPending) ∧
    ¬((lookupPayment (process_payment 0 emptyDB 1 7 plan1m methodYm
          (Except.error ())).db 1).map (fun q => q.status) = some stFailed) := by
  decide

/-- C4 (amended): whenever the provider create call raises
`PaymentError`, `process_payment` returns a user-facing error
(`ok = false`), but the already-persisted intent is left with status
`pending` — it is never marked `failed`. -/
theorem c4_provider_failure_status :
    ∀ (planType : String) (plan : Plan),
      SUBSCRIPTION_PLANS planType = some plan →
      ∀ (now : Int) (db : DB) (pid uid : Nat) (method : String),
        (∀ q ∈ db.payments, q.id ≠ pid) →
        (process_payment now db pid uid planType method (Except.error ())).ok
            = false ∧
        ((lookupPayment (process_payment now db pid uid planType method
              (Except.error ())).db pid).map (fun q => q.status)
            = some stPending) := by
  intro planType plan hplan now db pid uid method hfresh
  have hnone : db.payments.find? (fun q => q.id = pid) = none :=
    List.find?_eq_none.mpr (by intro a ha; simpa using hfresh a ha)
  unfold process_payment
  rw [hplan]
  refine ⟨rfl, ?_⟩
  unfold lookupPayment
  simp only []
  rw [find_append_right _ _ _ hnone,
    List.find?_cons_of_pos _ (by simp [newIntent])]
  rfl

/-- C4 witness: the amended statement evaluated at the one-month plan,
an empty store and a failing provider. -/
theorem c4_provider_failure_status_witness :
    (process_payment 0 emptyDB 2 7 plan1m methodYm (Except.error ())).ok
        = false ∧
    ((lookupPayment (process_payment 0 emptyDB 2 7 plan1m methodYm
          (Except.error ())).db 2).map (fun q => q.status) = some stPending) :=
  c4_provider_failure_status plan1m ⟨299, 30⟩ (by decide) 0 emptyDB 2 7
    methodYm (by intro q hq; cases hq)
